import Mathlib

/-!
Verification of the resolver abstraction and multi-source dispatch layer of
the blazesym symbolization core: the `KernelResolver` composite
(src/kernel.rs), the `Source` taxonomy (src/symbolize/source.rs), and the
symbolizer dispatch contract (src/symbolize/mod.rs and the design spec).
Rust values are shallowly embedded: paths become strings, addresses become
naturals, `Result` becomes `Except`, and `Option` stays `Option`.
-/

namespace Blazesym

/-- Addresses are opaque unsigned integers; only equality and ordering
matter to this core. -/
abbrev Addr := Nat

/-- The error-kind taxonomy relevant to this core: the construction error
uses the not-found kind; collaborator failures carry arbitrary kinds. -/
inductive ErrorKind where
  | notFound
  | other
deriving DecidableEq, Repr

/-- An I/O-style error: a kind plus a message, mirroring std::io::Error as
used in src/kernel.rs. -/
structure IOError where
  kind : ErrorKind
  msg : String
deriving DecidableEq, Repr

/-- Line-level result of resolving an address (src/symbolize/mod.rs):
source-file path, line number, column number. -/
structure AddrLineInfo where
  path : String
  line : Nat
  column : Nat
deriving DecidableEq, Repr

/-- Modelled from the spec: the table-resolver collaborator (crate::ksym,
not under src/). Per section 6 it must expose find_syms and a file_name
accessor for diagnostics; its behavior is kept abstract as a function. -/
structure KSymResolver where
  find_syms : Addr → Except IOError (List (String × Addr))
  file_name : String

/-- Modelled from the spec: the ELF-resolver collaborator (crate::elf, not
under src/). Per section 6 it must expose find_syms, find_line_info and
file_name; its behavior is kept abstract as functions. -/
structure ElfResolver where
  find_syms : Addr → Except IOError (List (String × Addr))
  find_line_info : Addr → Except IOError (Option AddrLineInfo)
  file_name : String

instance : Inhabited ElfResolver :=
  ⟨{ find_syms := fun _ => Except.ok []
     find_line_info := fun _ => Except.ok none
     file_name := "" }⟩

/-- Modelled from the spec: symbol location descriptor returned by reverse
lookup (crate::inspect::SymInfo, not under src/). Only its emptiness
matters to the composite. -/
structure SymInfo where
  name : String
  addr : Addr
deriving DecidableEq, Repr

/-- Modelled from the spec: options of the reverse lookup
(crate::inspect::FindAddrOpts, not under src/). The composite ignores it,
so it is left without observable content. -/
structure FindAddrOpts where
deriving DecidableEq, Repr

/-- The kernel composite resolver over two optional child resolvers
(src/kernel.rs, lines 19-22). The reference-counted pointer around the
ksym resolver is dropped in this pure model. -/
structure KernelResolver where
  ksym_resolver : Option KSymResolver
  elf_resolver : Option ElfResolver

namespace KernelResolver

/-- KernelResolver::new (src/kernel.rs, lines 25-40). -/
def new (ksym_resolver : Option KSymResolver) (elf_resolver : Option ElfResolver) :
    Except IOError KernelResolver :=
  if ksym_resolver.isNone && elf_resolver.isNone then
    Except.error
      { kind := ErrorKind.notFound
        msg := "failed to create kernel resolver: neither ksym resolver nor kernel image ELF resolver are present" }
  else
    Except.ok { ksym_resolver, elf_resolver }

/-- KernelResolver::find_syms (src/kernel.rs, lines 44-50). The unwrap of
the ELF resolver is modelled by get!; its panic branch is unreachable for
resolvers produced by new. -/
def find_syms (r : KernelResolver) (addr : Addr) :
    Except IOError (List (String × Addr)) :=
  match r.ksym_resolver with
  | some ksym_resolver => ksym_resolver.find_syms addr
  | none => r.elf_resolver.get!.find_syms addr

/-- KernelResolver::find_addr (src/kernel.rs, lines 52-54). -/
def find_addr (_r : KernelResolver) (_name : String) (_opts : FindAddrOpts) :
    Except IOError (List SymInfo) :=
  Except.ok []

/-- KernelResolver::find_line_info (src/kernel.rs, lines 56-62). -/
def find_line_info (r : KernelResolver) (addr : Addr) :
    Except IOError (Option AddrLineInfo) :=
  match r.elf_resolver with
  | some resolver => resolver.find_line_info addr
  | none => Except.ok none

/-- KernelResolver::addr_file_off (src/kernel.rs, lines 64-66). -/
def addr_file_off (_r : KernelResolver) (_addr : Addr) : Option Nat :=
  none

/-- The Debug formatting of the composite (src/kernel.rs, lines 69-86):
the word KernelResolver followed by the file name of each present child,
an empty string standing in for an absent child. -/
def debug_fmt (r : KernelResolver) : String :=
  "KernelResolver "
    ++ ((r.ksym_resolver.map KSymResolver.file_name).getD "")
    ++ " "
    ++ ((r.elf_resolver.map ElfResolver.file_name).getD "")

end KernelResolver

/-- Modelled from the spec: process identifier (crate::Pid, not under
src/). A dedicated sentinel denotes the calling process. -/
inductive Pid where
  | slf
  | pid (raw : Nat)
deriving DecidableEq, Repr

/-- A single ELF file descriptor (src/symbolize/source.rs, lines 12-24).
The zero-information non-exhaustiveness marker field is omitted. -/
structure Elf where
  path : String
deriving DecidableEq, Repr

/-- Kernel source descriptor (src/symbolize/source.rs, lines 43-64):
optional kallsyms copy path and optional kernel image path. -/
structure Kernel where
  kallsyms : Option String
  kernel_image : Option String
deriving DecidableEq, Repr

/-- Process source descriptor (src/symbolize/source.rs, lines 73-85). -/
structure Process where
  pid : Pid
deriving DecidableEq, Repr

/-- In-memory Gsym data descriptor (src/symbolize/source.rs, lines
126-134). -/
structure GsymData where
  data : List UInt8
deriving DecidableEq, Repr

/-- On-disk Gsym file descriptor (src/symbolize/source.rs, lines
153-161). -/
structure GsymFile where
  path : String
deriving DecidableEq, Repr

/-- The Gsym alternative (src/symbolize/source.rs, lines 118-124). -/
inductive Gsym where
  | data (d : GsymData)
  | file (f : GsymFile)
deriving DecidableEq, Repr

/-- The source taxonomy (src/symbolize/source.rs, lines 184-195): a tagged
union with exactly the variants Elf, Kernel, Process and Gsym. -/
inductive Source where
  | elf (e : Elf)
  | kernel (k : Kernel)
  | process (p : Process)
  | gsym (g : Gsym)
deriving DecidableEq, Repr

namespace Source

/-- From Elf into Source (src/symbolize/source.rs, lines 36-40). -/
def fromElf (elf : Elf) : Source := Source.elf elf

/-- From Kernel into Source (src/symbolize/source.rs, lines 66-70). -/
def fromKernel (kernel : Kernel) : Source := Source.kernel kernel

/-- From Process into Source (src/symbolize/source.rs, lines 111-115). -/
def fromProcess (process : Process) : Source := Source.process process

/-- From GsymData into Source (src/symbolize/source.rs, lines 146-150). -/
def fromGsymData (gsym : GsymData) : Source := Source.gsym (Gsym.data gsym)

/-- From GsymFile into Source (src/symbolize/source.rs, lines 173-177). -/
def fromGsymFile (gsym : GsymFile) : Source := Source.gsym (Gsym.file gsym)

/-- Recover the Elf descriptor by matching on the Elf variant. -/
def asElf : Source → Option Elf
  | Source.elf e => some e
  | _ => none

/-- Recover the Kernel descriptor by matching on the Kernel variant. -/
def asKernel : Source → Option Kernel
  | Source.kernel k => some k
  | _ => none

/-- Recover the Process descriptor by matching on the Process variant. -/
def asProcess : Source → Option Process
  | Source.process p => some p
  | _ => none

/-- Recover the GsymData descriptor by matching on the Gsym Data variant. -/
def asGsymData : Source → Option GsymData
  | Source.gsym (Gsym.data d) => some d
  | _ => none

/-- Recover the GsymFile descriptor by matching on the Gsym File variant. -/
def asGsymFile : Source → Option GsymFile
  | Source.gsym (Gsym.file f) => some f
  | _ => none

end Source

/-- Modelled from the spec: the construction path the dispatch layer
selects for a source (section 4.3); the dispatch code itself
(src/symbolize/symbolizer.rs) is not under src/. Each variant carries the
configuration the matching resolver is built from. -/
inductive ResolverPath where
  | elfBacked (path : String)
  | kernelComposite (kallsyms : Option String) (kernel_image : Option String)
  | processMaps (pid : Pid)
  | gsymInMemory (data : List UInt8)
  | gsymOnDisk (path : String)
deriving DecidableEq, Repr

/-- Modelled from the spec: resolver selection (section 4.3) as an
exhaustive match over the closed source taxonomy, with no default
branch. -/
def select_resolver_path : Source → ResolverPath
  | Source.elf e => ResolverPath.elfBacked e.path
  | Source.kernel k => ResolverPath.kernelComposite k.kallsyms k.kernel_image
  | Source.process p => ResolverPath.processMaps p.pid
  | Source.gsym (Gsym.data d) => ResolverPath.gsymInMemory d.data
  | Source.gsym (Gsym.file f) => ResolverPath.gsymOnDisk f.path

/-- Caller-facing output per matched symbol (spec section 3): symbol name,
matched address, resolved file path, line and column. -/
structure SymbolizedResult where
  symbol : String
  addr : Addr
  path : String
  line : Nat
  column : Nat
deriving DecidableEq, Repr

/-- Modelled from the spec: the SymResolver capability (section 4.1) as a
record of the four required operations, behavior kept abstract. -/
structure SymResolver where
  find_syms : Addr → Except IOError (List (String × Addr))
  find_addr : String → FindAddrOpts → Except IOError (List SymInfo)
  find_line_info : Addr → Except IOError (Option AddrLineInfo)
  addr_file_off : Addr → Option Nat

namespace Symbolizer

/-- Modelled from the spec: per-address symbolization (section 4.4,
src/symbolize/symbolizer.rs is not under src/). The resolver is queried
for symbols covering the address; line info is additionally queried and
attached when available; errors propagate unchanged. -/
def symbolize_addr (r : SymResolver) (addr : Addr) :
    Except IOError (List SymbolizedResult) := do
  let syms ← r.find_syms addr
  let li ← r.find_line_info addr
  Except.ok (syms.map fun s =>
    match li with
    | some info =>
      { symbol := s.1, addr := s.2, path := info.path, line := info.line
        column := info.column }
    | none => { symbol := s.1, addr := s.2, path := "", line := 0, column := 0 })

/-- Modelled from the spec: symbolization of a batch of addresses against
one resolver (section 4.4); a failure for any address aborts the whole
call, otherwise one inner sequence is produced per address, in order. -/
def symbolize_all (r : SymResolver) :
    List Addr → Except IOError (List (List SymbolizedResult))
  | [] => Except.ok []
  | addr :: rest => do
    let first ← symbolize_addr r addr
    let others ← symbolize_all r rest
    Except.ok (first :: others)

/-- Modelled from the spec: Symbolizer::symbolize (section 4.4,
src/symbolize/symbolizer.rs is not under src/). The resolver for the
source is built once per call (construction kept abstract as a function
argument), then every address is resolved against it. -/
def symbolize (resolver_for : Source → Except IOError SymResolver)
    (src : Source) (addrs : List Addr) :
    Except IOError (List (List SymbolizedResult)) := do
  let r ← resolver_for src
  symbolize_all r addrs

end Symbolizer

/-- A concrete table resolver used to instantiate universally quantified
theorems: the scenario table carrying the entry (do_sys_open, 0x1000). -/
def sample_ksym : KSymResolver where
  find_syms := fun a =>
    if a = 0x1000 then Except.ok [("do_sys_open", 0x1000)] else Except.ok []
  file_name := "kallsyms"

/-- A concrete ELF resolver used to instantiate universally quantified
theorems: its debug info maps 0x2000 to fs/open.c, line 42, column 3. -/
def sample_elf : ElfResolver where
  find_syms := fun a =>
    if a = 0x2000 then Except.ok [("vfs_open", 0x2000)] else Except.ok []
  find_line_info := fun a =>
    if a = 0x2000 then
      Except.ok (some { path := "fs/open.c", line := 42, column := 3 })
    else Except.ok none
  file_name := "vmlinux"

/-- Helper: a successful batch symbolization yields exactly one inner
result list per input address. -/
theorem symbolize_all_length (r : SymResolver) (addrs : List Addr)
    (out : List (List SymbolizedResult))
    (h : Symbolizer.symbolize_all r addrs = Except.ok out) :
    out.length = addrs.length := by
  induction addrs generalizing out with
  | nil =>
    simp only [Symbolizer.symbolize_all] at h
    cases h
    rfl
  | cons a rest ih =>
    simp only [Symbolizer.symbolize_all] at h
    cases hf : Symbolizer.symbolize_addr r a with
    | error err => rw [hf] at h; exact absurd h (by simp [Bind.bind, Except.bind])
    | ok first =>
      rw [hf] at h
      cases ho : Symbolizer.symbolize_all r rest with
      | error err => rw [ho] at h; exact absurd h (by simp [Bind.bind, Except.bind])
      | ok others =>
        rw [ho] at h
        simp only [Bind.bind, Except.bind] at h
        cases h
        simp [ih others ho]

/-- Claim C1: KernelResolver::new returns a not-found configuration error
exactly when both optional child resolvers are absent; whenever at least
one child is present, construction succeeds and the resulting resolver
holds exactly those children. -/
theorem kernelResolver_new_spec (k : Option KSymResolver) (e : Option ElfResolver) :
    ((∃ err, KernelResolver.new k e = Except.error err ∧ err.kind = ErrorKind.notFound)
      ↔ (k = none ∧ e = none))
    ∧ ((k.isSome ∨ e.isSome) →
        KernelResolver.new k e = Except.ok { ksym_resolver := k, elf_resolver := e }) := by
  cases k <;> cases e <;> simp [KernelResolver.new]

/-- Witness for C1 at concrete inputs: both absent yields the not-found
error, and a table-only configuration constructs successfully. -/
theorem kernelResolver_new_spec_witness :
    (∃ err, KernelResolver.new none none = Except.error err
      ∧ err.kind = ErrorKind.notFound)
    ∧ KernelResolver.new (some sample_ksym) none
      = Except.ok { ksym_resolver := some sample_ksym, elf_resolver := none } :=
  ⟨(kernelResolver_new_spec none none).1.mpr ⟨rfl, rfl⟩,
    (kernelResolver_new_spec (some sample_ksym) none).2 (Or.inl rfl)⟩

/-- Claim C2: for every address, find_syms on the composite returns
exactly the table resolver result whenever the table resolver is present,
and exactly the ELF resolver result when the table resolver is absent; the
two answers are never merged and errors pass through unchanged. -/
theorem kernelResolver_find_syms_delegation (r : KernelResolver) (addr : Addr) :
    (∀ k, r.ksym_resolver = some k → r.find_syms addr = k.find_syms addr)
    ∧ (r.ksym_resolver = none →
        ∀ e, r.elf_resolver = some e → r.find_syms addr = e.find_syms addr) := by
  constructor
  · intro k hk
    simp [KernelResolver.find_syms, hk]
  · intro hk e he
    simp [KernelResolver.find_syms, hk, he]

/-- Witness for C2 at concrete inputs: a table-only composite answers via
the table, and an ELF-only composite answers via the ELF resolver. -/
theorem kernelResolver_find_syms_delegation_witness :
    (KernelResolver.mk (some sample_ksym) none).find_syms 0x1000
      = sample_ksym.find_syms 0x1000
    ∧ (KernelResolver.mk none (some sample_elf)).find_syms 0x2000
      = sample_elf.find_syms 0x2000 :=
  ⟨(kernelResolver_find_syms_delegation (KernelResolver.mk (some sample_ksym) none) 0x1000).1
      sample_ksym rfl,
    (kernelResolver_find_syms_delegation (KernelResolver.mk none (some sample_elf)) 0x2000).2
      rfl sample_elf rfl⟩

/-- Claim C3: for every source and every batch of input addresses, a
successful symbolize call returns one inner sequence per input address in
input order, so the output length equals the input length. -/
theorem symbolize_output_length (resolver_for : Source → Except IOError SymResolver)
    (src : Source) (addrs : List Addr) (out : List (List SymbolizedResult))
    (h : Symbolizer.symbolize resolver_for src addrs = Except.ok out) :
    out.length = addrs.length := by
  simp only [Symbolizer.symbolize] at h
  cases hr : resolver_for src with
  | error err => rw [hr] at h; exact absurd h (by simp [Bind.bind, Except.bind])
  | ok r =>
    rw [hr] at h
    simp only [Bind.bind, Except.bind] at h
    exact symbolize_all_length r addrs out h

/-- Witness for C3 at concrete inputs: a two-address batch against a
kernel source produces exactly two inner sequences. -/
theorem symbolize_output_length_witness :
    (Symbolizer.symbolize
        (fun _ => Except.ok
          { find_syms := sample_ksym.find_syms
            find_addr := fun _ _ => Except.ok []
            find_line_info := fun _ => Except.ok none
            addr_file_off := fun _ => none })
        (Source.kernel { kallsyms := none, kernel_image := none })
        [0x1000, 0x2000]
      = Except.ok [[{ symbol := "do_sys_open", addr := 0x1000, path := ""
                      line := 0, column := 0 }], []])
    ∧ ([[({ symbol := "do_sys_open", addr := 0x1000, path := ""
            line := 0, column := 0 } : SymbolizedResult)], []].length
        = [0x1000, 0x2000].length) :=
  ⟨rfl,
    symbolize_output_length
      (fun _ => Except.ok
        { find_syms := sample_ksym.find_syms
          find_addr := fun _ _ => Except.ok []
          find_line_info := fun _ => Except.ok none
          addr_file_off := fun _ => none })
      (Source.kernel { kallsyms := none, kernel_image := none })
      [0x1000, 0x2000] _ rfl⟩

/-- Claim C4: for every address, find_line_info on the composite returns
exactly the ELF resolver result when an ELF resolver is present, and
returns a successful none for every address when it is absent; the table
resolver is never consulted. -/
theorem kernelResolver_find_line_info_spec (r : KernelResolver) (addr : Addr) :
    (∀ e, r.elf_resolver = some e → r.find_line_info addr = e.find_line_info addr)
    ∧ (r.elf_resolver = none → r.find_line_info addr = Except.ok none) := by
  constructor
  · intro e he
    simp [KernelResolver.find_line_info, he]
  · intro he
    simp [KernelResolver.find_line_info, he]

/-- Witness for C4 at concrete inputs: with the ELF resolver present the
scenario line triple is returned; without it, a successful none. -/
theorem kernelResolver_find_line_info_spec_witness :
    (KernelResolver.mk (some sample_ksym) (some sample_elf)).find_line_info 0x2000
      = sample_elf.find_line_info 0x2000
    ∧ (KernelResolver.mk (some sample_ksym) none).find_line_info 0x2000
      = Except.ok none :=
  ⟨(kernelResolver_find_line_info_spec
        (KernelResolver.mk (some sample_ksym) (some sample_elf)) 0x2000).1
      sample_elf rfl,
    (kernelResolver_find_line_info_spec
        (KernelResolver.mk (some sample_ksym) none) 0x2000).2 rfl⟩

/-- Claim C5: for every address and every valid configuration (at least
one child present), addr_file_off on the composite returns none. -/
theorem kernelResolver_addr_file_off_none (r : KernelResolver) (addr : Addr)
    (_h : r.ksym_resolver.isSome ∨ r.elf_resolver.isSome) :
    r.addr_file_off addr = none := rfl

/-- Witness for C5 at a concrete table-only configuration. -/
theorem kernelResolver_addr_file_off_none_witness :
    (KernelResolver.mk (some sample_ksym) none).addr_file_off 0x1000 = none :=
  kernelResolver_addr_file_off_none
    (KernelResolver.mk (some sample_ksym) none) 0x1000 (Or.inl rfl)

/-- Claim C6: for every name and options value, find_addr on the composite
returns a successful empty sequence, never an error, regardless of which
children are present. -/
theorem kernelResolver_find_addr_empty (r : KernelResolver) (name : String)
    (opts : FindAddrOpts) :
    r.find_addr name opts = Except.ok [] := rfl

/-- Claim C7: the source taxonomy is closed over exactly the variants Elf,
Kernel, Process and Gsym (Data or File), and the dispatch mapping matches
it exhaustively, sending each variant to its own construction path as a
total function with no default branch. -/
theorem source_taxonomy_closed (s : Source) :
    ((∃ e, s = Source.elf e) ∨ (∃ k, s = Source.kernel k)
      ∨ (∃ p, s = Source.process p)
      ∨ (∃ d, s = Source.gsym (Gsym.data d))
      ∨ (∃ f, s = Source.gsym (Gsym.file f)))
    ∧ (∀ e, select_resolver_path (Source.elf e) = ResolverPath.elfBacked e.path)
    ∧ (∀ k, select_resolver_path (Source.kernel k)
        = ResolverPath.kernelComposite k.kallsyms k.kernel_image)
    ∧ (∀ p, select_resolver_path (Source.process p) = ResolverPath.processMaps p.pid)
    ∧ (∀ d, select_resolver_path (Source.gsym (Gsym.data d))
        = ResolverPath.gsymInMemory d.data)
    ∧ (∀ f, select_resolver_path (Source.gsym (Gsym.file f))
        = ResolverPath.gsymOnDisk f.path) := by
  refine ⟨?_, fun _ => rfl, fun _ => rfl, fun _ => rfl, fun _ => rfl, fun _ => rfl⟩
  cases s with
  | elf e => exact Or.inl ⟨e, rfl⟩
  | kernel k => exact Or.inr (Or.inl ⟨k, rfl⟩)
  | process p => exact Or.inr (Or.inr (Or.inl ⟨p, rfl⟩))
  | gsym g =>
    cases g with
    | data d => exact Or.inr (Or.inr (Or.inr (Or.inl ⟨d, rfl⟩)))
    | file f => exact Or.inr (Or.inr (Or.inr (Or.inr ⟨f, rfl⟩)))

/-- Counterexample for C9 as stated: without restrictions on the backing
file names the configurations are not always distinguishable from the
printed identity. With an absent-looking empty ELF file name the
both-children output equals the table-only output, and with single-space
file names the table-only output equals the ELF-only output. -/
theorem kernelResolver_debug_fmt_collision :
    ((KernelResolver.mk
          (some { find_syms := fun _ => Except.ok [], file_name := "kallsyms" })
          (some { find_syms := fun _ => Except.ok []
                  find_line_info := fun _ => Except.ok none
                  file_name := "" })).debug_fmt
        = (KernelResolver.mk
            (some { find_syms := fun _ => Except.ok [], file_name := "kallsyms" })
            none).debug_fmt)
    ∧ ((KernelResolver.mk
          (some { find_syms := fun _ => Except.ok [], file_name := " " })
          none).debug_fmt
        = (KernelResolver.mk none
            (some { find_syms := fun _ => Except.ok []
                    find_line_info := fun _ => Except.ok none
                    file_name := " " })).debug_fmt) :=
  ⟨rfl, rfl⟩

/-- Claim C9, amended: the printable identity of the composite shows the backing
file name of each present child and an empty string in the position of
each absent child; consequently, for child resolvers with nonempty,
space-free file names, the three valid configurations (both, table only,
ELF only) produce pairwise distinct output. -/
theorem kernelResolver_debug_fmt_spec (k : KSymResolver) (e : ElfResolver)
    (hk : k.file_name ≠ "") (he : e.file_name ≠ "")
    (hks : ∀ c ∈ k.file_name.data, c ≠ ' ') :
    (KernelResolver.mk (some k) (some e)).debug_fmt
      = "KernelResolver " ++ k.file_name ++ " " ++ e.file_name
    ∧ (KernelResolver.mk (some k) none).debug_fmt
      = "KernelResolver " ++ k.file_name ++ " " ++ ""
    ∧ (KernelResolver.mk none (some e)).debug_fmt
      = "KernelResolver " ++ "" ++ " " ++ e.file_name
    ∧ (KernelResolver.mk (some k) (some e)).debug_fmt
      ≠ (KernelResolver.mk (some k) none).debug_fmt
    ∧ (KernelResolver.mk (some k) (some e)).debug_fmt
      ≠ (KernelResolver.mk none (some e)).debug_fmt
    ∧ (KernelResolver.mk (some k) none).debug_fmt
      ≠ (KernelResolver.mk none (some e)).debug_fmt := by
  have hkd : k.file_name.data ≠ [] := by
    intro hnil
    exact hk (String.ext (by rw [hnil]))
  have hed : e.file_name.data ≠ [] := by
    intro hnil
    exact he (String.ext (by rw [hnil]))
  refine ⟨rfl, rfl, rfl, ?_, ?_, ?_⟩
  · intro hcontra
    have hd := congrArg String.data hcontra
    simp only [KernelResolver.debug_fmt, Option.map_some', Option.map_none',
      Option.getD_some, Option.getD_none, String.data_append,
      List.append_assoc, List.append_nil, List.nil_append] at hd
    have hlen := congrArg List.length hd
    simp only [List.length_append, List.length_cons, List.length_nil] at hlen
    exact hed (List.eq_nil_of_length_eq_zero (by omega))
  · intro hcontra
    have hd := congrArg String.data hcontra
    simp only [KernelResolver.debug_fmt, Option.map_some', Option.map_none',
      Option.getD_some, Option.getD_none, String.data_append,
      List.append_assoc, List.append_nil, List.nil_append] at hd
    have hlen := congrArg List.length hd
    simp only [List.length_append, List.length_cons, List.length_nil] at hlen
    exact hkd (List.eq_nil_of_length_eq_zero (by omega))
  · intro hcontra
    have hd := congrArg String.data hcontra
    simp only [KernelResolver.debug_fmt, Option.map_some', Option.map_none',
      Option.getD_some, Option.getD_none, String.data_append,
      List.append_assoc, List.append_nil, List.nil_append] at hd
    have h1 := List.append_cancel_left hd
    cases hcons : k.file_name.data with
    | nil => exact hkd hcons
    | cons c tl =>
      rw [hcons] at h1
      simp only [List.cons_append, List.singleton_append, List.nil_append,
        List.cons.injEq] at h1
      exact hks c (by rw [hcons]; exact List.mem_cons_self c tl) h1.1

/-- Witness for C9 at concrete children with file names kallsyms and
vmlinux: the table-only output differs from the ELF-only output. -/
theorem kernelResolver_debug_fmt_spec_witness :
    (KernelResolver.mk (some sample_ksym) none).debug_fmt
      ≠ (KernelResolver.mk none (some sample_elf)).debug_fmt :=
  (kernelResolver_debug_fmt_spec sample_ksym sample_elf (by decide) (by decide)
    (by decide)).2.2.2.2.2

/-- Claim C10: each From conversion of a source descriptor yields the
Source variant of the corresponding kind with the descriptor embedded
unchanged, so matching on that variant recovers the descriptor intact. -/
theorem source_from_roundtrip (e : Elf) (k : Kernel) (p : Process)
    (d : GsymData) (f : GsymFile) :
    Source.fromElf e = Source.elf e ∧ (Source.fromElf e).asElf = some e
    ∧ Source.fromKernel k = Source.kernel k
    ∧ (Source.fromKernel k).asKernel = some k
    ∧ Source.fromProcess p = Source.process p
    ∧ (Source.fromProcess p).asProcess = some p
    ∧ Source.fromGsymData d = Source.gsym (Gsym.data d)
    ∧ (Source.fromGsymData d).asGsymData = some d
    ∧ Source.fromGsymFile f = Source.gsym (Gsym.file f)
    ∧ (Source.fromGsymFile f).asGsymFile = some f :=
  ⟨rfl, rfl, rfl, rfl, rfl, rfl, rfl, rfl, rfl, rfl⟩

end Blazesym
